import Mathlib

/-!
Shallow embedding of the subscription / entitlement core of the
aiagentmarket backend (files app/config.py, app/models.py, app/auth.py,
app/stripe.py, app/api/subscription.py).

Database rows (SQLAlchemy models in app/models.py) are modelled as
structures, the database session as lists of rows in insertion order.
Query .first() is List.find?, ORM in-place mutation of the first matching
row is updateFirst, inserts append to the list.  Timestamps are Int
(seconds); datetime.utcnow defaults are threaded through as a `now`
parameter; datetime.fromtimestamp applied to a missing value raises in
Python, which the embedding models as the exception / rollback branch.
-/

namespace AgentMarket

/-- Row of the subscriptions table (app/models.py, class Subscription).
Only the columns the verified logic reads or writes are kept. -/
structure Subscription where
  id : Nat
  user_id : Nat
  tier : String
  stripe_customer_id : Option String := none
  stripe_subscription_id : Option String := none
  is_active : Bool := false
  started_at : Option Int := none
  ended_at : Option Int := none
  auto_renew : Bool := true
deriving Repr, DecidableEq

/-- Row of the user_agents table (app/models.py, class UserAgent): the
per-user capability grant. -/
structure UserAgent where
  user_id : Nat
  agent_id : String
  is_enabled : Bool := true
deriving Repr, DecidableEq

/-- Row of the users table (app/models.py, class User); only the columns
create_user touches. -/
structure UserRow where
  id : Nat
  email : String
  hashed_password : Option String := none
  google_id : Option String := none
  first_name : Option String := none
  last_name : Option String := none
  last_login : Option Int := none
deriving Repr, DecidableEq

/-- The relational store, with insertion-order lists standing for the
tables and counters standing for autoincrement primary keys. -/
structure DB where
  users : List UserRow := []
  subscriptions : List Subscription := []
  user_agents : List UserAgent := []
  next_user_id : Nat := 1
  next_sub_id : Nat := 1
deriving Repr, DecidableEq

/-- Per-tier configuration (app/config.py, entries of
Settings.SUBSCRIPTION_TIERS): the agent list and the external price
reference.  Display name, price and feature list are not read by the
verified logic. -/
structure TierCfg where
  agents : List String
  price_id : Option String
deriving Repr, DecidableEq

/-- Environment-provided Stripe price references
(STRIPE_PRICE_ID_PRO / STRIPE_PRICE_ID_ENTERPRISE in app/config.py);
os.getenv returns None when unset. -/
structure StripeEnv where
  pro_price_id : Option String := none
  enterprise_price_id : Option String := none
deriving Repr, DecidableEq

/-- The tier catalog Settings.SUBSCRIPTION_TIERS (app/config.py lines
35-93), in dict insertion order.  The basic tier has price_id None. -/
def SUBSCRIPTION_TIERS (env : StripeEnv) : List (String × TierCfg) :=
  [ ("basic", { agents := ["portfolio_agent"], price_id := none }),
    ("professional",
      { agents := ["portfolio_agent", "stockfinder", "newsagent",
                   "options_strategy_agent", "etf_screener_agent"],
        price_id := env.pro_price_id }),
    ("enterprise",
      { agents := ["portfolio_agent", "stockfinder", "newsagent",
                   "options_strategy_agent", "etf_screener_agent",
                   "social_sentiment_agent", "macro_sector_agent",
                   "tradeagent", "portfolioadvisoragent"],
        price_id := env.enterprise_price_id }) ]

/-- settings.SUBSCRIPTION_TIERS.get(tier, \x7b\x7d).get("agents", [])
(app/auth.py line 171): the agent list of a tier, empty for an unknown
tier. -/
def tierAgents (env : StripeEnv) (tier : String) : List String :=
  match (SUBSCRIPTION_TIERS env).find? (fun p => p.fst == tier) with
  | some p => p.snd.agents
  | none => []

/-- Python truthiness of an optional string (None and the empty string
are falsy). -/
def pyTruthy (o : Option String) : Bool :=
  match o with
  | some s => !(s == "")
  | none => false

/-- Python `a or b` on optional timestamps (None and 0 are falsy). -/
def pyOrInt (a b : Option Int) : Option Int :=
  match a with
  | some n => if n == 0 then b else some n
  | none => b

/-- In-place mutation of the first row matching the query predicate:
the ORM identity semantics of `row = query(...).first(); row.f = v`. -/
def updateFirst (l : List Subscription) (p : Subscription → Bool)
    (f : Subscription → Subscription) : List Subscription :=
  match l with
  | [] => []
  | x :: xs => if p x then f x :: xs else x :: updateFirst xs p f

/-- db.query(Subscription).filter(user_id == uid, is_active == True)
.order_by(Subscription.id.desc()).first() (app/auth.py lines 149-152):
the active subscription row with the greatest primary key. -/
def activeSubscription (db : DB) (uid : Nat) : Option Subscription :=
  (db.subscriptions.filter (fun s => s.user_id == uid && s.is_active)).foldl
    (fun acc s =>
      match acc with
      | none => some s
      | some t => if t.id < s.id then some s else some t) none

/-- get_subscription_user (app/auth.py lines 145-158): the active
subscription together with the resolved tier string, which falls back to
"basic" when there is no active subscription. -/
def get_subscription_user (db : DB) (uid : Nat) : Option Subscription × String :=
  match activeSubscription db uid with
  | some s => (some s, s.tier)
  | none => (none, "basic")

/-- The tier component of get_subscription_user. -/
def resolveTier (db : DB) (uid : Nat) : String :=
  (get_subscription_user db uid).snd

/-- db.query(UserAgent).filter(user_id == uid, agent_id == agent).first()
(app/auth.py lines 179-181). -/
def findUserAgent (db : DB) (uid : Nat) (agent : String) : Option UserAgent :=
  db.user_agents.find? (fun ua => ua.user_id == uid && ua.agent_id == agent)

/-- Outcome of check_agent_access: success, the 400 for a missing agent
id, or one of the two 403 denial reasons. -/
inductive AccessOutcome where
  | allow
  | agentNotSpecified
  | tierNotIncluded
  | explicitlyDisabled
deriving Repr, DecidableEq

/-- check_agent_access (app/auth.py lines 160-205).  Denies with 400 when
no agent id is given, with 403 when the resolved tier does not list the
agent, auto-provisions an enabled UserAgent row on first touch, and
denies with 403 when the existing row is disabled. -/
def check_agent_access (env : StripeEnv) (db : DB) (uid : Nat)
    (agent_id : String) : AccessOutcome × DB :=
  if agent_id = "" then (AccessOutcome.agentNotSpecified, db)
  else if agent_id ∈ tierAgents env (resolveTier db uid) then
    match findUserAgent db uid agent_id with
    | none =>
        (AccessOutcome.allow,
         { db with user_agents := db.user_agents ++
             [{ user_id := uid, agent_id := agent_id, is_enabled := true }] })
    | some ua =>
        if ua.is_enabled then (AccessOutcome.allow, db)
        else (AccessOutcome.explicitlyDisabled, db)
  else (AccessOutcome.tierNotIncluded, db)

/-- create_subscription (app/auth.py lines 101-116): inserts a
Subscription row; is_active is True exactly for the basic tier and
auto_renew is False exactly for the basic tier; started_at takes the ORM
default utcnow. -/
def create_subscription (db : DB) (user_id : Nat) (tier : String)
    (stripe_customer_id stripe_subscription_id : Option String)
    (now : Int) : DB :=
  { db with
    subscriptions := db.subscriptions ++
      [{ id := db.next_sub_id, user_id := user_id, tier := tier,
         stripe_customer_id := stripe_customer_id,
         stripe_subscription_id := stripe_subscription_id,
         is_active := tier == "basic",
         started_at := some now, ended_at := none,
         auto_renew := !(tier == "basic") }],
    next_sub_id := db.next_sub_id + 1 }

/-- In-place mutation of the first matching users row. -/
def updateFirstUser (l : List UserRow) (p : UserRow → Bool)
    (f : UserRow → UserRow) : List UserRow :=
  match l with
  | [] => []
  | x :: xs => if p x then f x :: xs else x :: updateFirstUser xs p f

/-- create_user (app/auth.py lines 57-99).  An existing email returns the
existing row (optionally adopting a Google id); otherwise a users row is
inserted, a basic subscription is created via create_subscription, and an
enabled UserAgent row is added for every agent of the basic tier.  The
password hash function is an opaque parameter (bcrypt). -/
def create_user (env : StripeEnv) (db : DB) (email : String)
    (password : Option String) (first_name last_name : Option String)
    (google_id : Option String) (hash : String → String) (now : Int) :
    Nat × DB :=
  match db.users.find? (fun u => u.email == email) with
  | some u =>
      if pyTruthy google_id && !(pyTruthy u.google_id) then
        let users1 := updateFirstUser db.users (fun v => v.email == email)
          (fun v => { v with google_id := google_id, last_login := some now })
        (u.id, { db with users := users1 })
      else (u.id, db)
  | none =>
      let uid := db.next_user_id
      let user : UserRow :=
        { id := uid, email := email,
          hashed_password := password.map hash,
          google_id := google_id, first_name := first_name,
          last_name := last_name, last_login := some now }
      let db1 : DB := { db with users := db.users ++ [user], next_user_id := uid + 1 }
      let db2 := create_subscription db1 uid "basic" none none now
      let grants := (tierAgents env "basic").map
        (fun a => { user_id := uid, agent_id := a, is_enabled := true : UserAgent })
      let db3 : DB := { db2 with user_agents := db2.user_agents ++ grants }
      (uid, db3)

/-- The data.object of a customer.subscription.* webhook payload
(app/stripe.py process_stripe_webhook); items is the list of price ids of
items.data, each possibly missing. -/
structure StripeSubObject where
  id : Option String := none
  customer : Option String := none
  status : Option String := none
  cancel_at_period_end : Bool := false
  canceled_at : Option Int := none
  current_period_end : Option Int := none
  start_date : Option Int := none
  items : List (Option String) := []
deriving Repr, DecidableEq

/-- A Stripe webhook event: its type string and the nested object. -/
structure StripeEvent where
  etype : String
  obj : StripeSubObject
deriving Repr, DecidableEq

/-- status in ["active", "trialing"] on an optional provider status. -/
def statusActive (st : Option String) : Bool :=
  st == some "active" || st == some "trialing"

/-- The tier-from-price loop (app/stripe.py lines 184-187): the first
catalog tier whose price_id equals the payload price id (Python ==, so a
missing payload price id matches the basic tier, whose price_id is
None). -/
def tier_for_price (env : StripeEnv) (p : Option String) : Option String :=
  ((SUBSCRIPTION_TIERS env).find? (fun q => q.snd.price_id == p)).map Prod.fst

/-- process_stripe_webhook (app/stripe.py lines 154-251).  Returns the
boolean the endpoint reports to the provider together with the database
after the event.  A datetime.fromtimestamp call on a missing value raises
inside the try, which rolls the session back and returns False; every
unmatched lookup or unrecognized type falls through to the final
`return True`. -/
def process_stripe_webhook (env : StripeEnv) (db : DB) (ev : StripeEvent)
    (now : Int) : Bool × DB :=
  if ev.etype == "customer.subscription.created" then
    match db.subscriptions.find? (fun s => s.stripe_customer_id == ev.obj.customer) with
    | none => (true, db)
    | some row =>
        match ev.obj.start_date with
        | none => (false, db)
        | some sd =>
            let newTier :=
              match ev.obj.items with
              | [] => row.tier
              | p :: _ =>
                  match tier_for_price env p with
                  | some t => t
                  | none => row.tier
            let subs1 := updateFirst db.subscriptions
              (fun s => s.stripe_customer_id == ev.obj.customer)
              (fun s => { s with stripe_subscription_id := ev.obj.id,
                                 is_active := statusActive ev.obj.status,
                                 started_at := some sd, ended_at := none,
                                 tier := newTier })
            (true, { db with subscriptions := subs1 })
  else if ev.etype == "customer.subscription.updated" then
    match db.subscriptions.find? (fun s => s.stripe_subscription_id == ev.obj.id) with
    | none => (true, db)
    | some _ =>
        if ev.obj.cancel_at_period_end then
          match ev.obj.current_period_end with
          | none => (false, db)
          | some pe =>
              let subs1 := updateFirst db.subscriptions
                (fun s => s.stripe_subscription_id == ev.obj.id)
                (fun s => { s with is_active := statusActive ev.obj.status,
                                   auto_renew := false, ended_at := some pe })
              (true, { db with subscriptions := subs1 })
        else
          let subs1 := updateFirst db.subscriptions
            (fun s => s.stripe_subscription_id == ev.obj.id)
            (fun s => { s with is_active := statusActive ev.obj.status,
                               auto_renew := true, ended_at := none })
          (true, { db with subscriptions := subs1 })
  else if ev.etype == "customer.subscription.deleted" then
    match db.subscriptions.find? (fun s => s.stripe_subscription_id == ev.obj.id) with
    | none => (true, db)
    | some row =>
        match pyOrInt ev.obj.canceled_at ev.obj.current_period_end with
        | none => (false, db)
        | some ca =>
            let subs1 := updateFirst db.subscriptions
              (fun s => s.stripe_subscription_id == ev.obj.id)
              (fun s => { s with is_active := false, auto_renew := false,
                                 ended_at := some ca })
            (true,
             { db with
               subscriptions := subs1 ++
                 [{ id := db.next_sub_id, user_id := row.user_id,
                    tier := "basic", is_active := true,
                    started_at := some now, ended_at := none,
                    auto_renew := false }],
               next_sub_id := db.next_sub_id + 1 })
  else (true, db)

/-- Outcome of the POST /subscription/create endpoint: the 400 conflict
rejection or the 500 from the generic exception handler. -/
inductive CreateOutcome where
  | conflict
  | serverError
deriving Repr, DecidableEq

/-- create_new_subscription (app/api/subscription.py lines 89-190),
returning the outcome, the database, and the number of external billing
calls made.  The conflict guard runs before the try block and before any
Stripe call.  Past the guard the handler calls Stripe (customer creation
is skipped when the current subscription carries a customer ref), and
then evaluates settings.SUBSCRIPTION_TIERS on line 125 — but the module
app/api/subscription.py never imports settings, so that line raises
NameError, which the except turns into a 500 with no local write. -/
def create_new_subscription (db : DB) (uid : Nat)
    (price_id payment_method_id : String) : CreateOutcome × DB × Nat :=
  match (get_subscription_user db uid).fst with
  | some s =>
      if s.is_active && !(s.tier == "basic") then (CreateOutcome.conflict, db, 0)
      else if pyTruthy s.stripe_customer_id then (CreateOutcome.serverError, db, 1)
      else (CreateOutcome.serverError, db, 2)
  | none => (CreateOutcome.serverError, db, 2)

/-- Outcome of the POST /subscription/cancel endpoint: the 400 when no
paid subscription exists, or success. -/
inductive CancelOutcome where
  | noPaidSubscription
  | ok
deriving Repr, DecidableEq

/-- cancel_current_subscription (app/api/subscription.py lines 192-244),
returning the outcome, the database, and whether the external billing
cancel was invoked.  Rejects when there is no active subscription or its
tier is basic; otherwise sets auto_renew to False on the current row and
inserts a new inactive basic Subscription row for the user. -/
def cancel_current_subscription (db : DB) (uid : Nat) (now : Int) :
    CancelOutcome × DB × Bool :=
  match (get_subscription_user db uid).fst with
  | none => (CancelOutcome.noPaidSubscription, db, false)
  | some s =>
      if s.tier == "basic" then (CancelOutcome.noPaidSubscription, db, false)
      else
        let subs1 := updateFirst db.subscriptions (fun t => t.id == s.id)
          (fun t => { t with auto_renew := false })
        let newBasic : Subscription :=
          { id := db.next_sub_id, user_id := uid, tier := "basic",
            is_active := false, started_at := some now, ended_at := none,
            auto_renew := false }
        (CancelOutcome.ok,
         { db with subscriptions := subs1 ++ [newBasic],
                   next_sub_id := db.next_sub_id + 1 },
         pyTruthy s.stripe_subscription_id)

/-- A webhook event type the reconciler recognizes. -/
def recognizedKind (t : String) : Prop :=
  t = "customer.subscription.created" ∨ t = "customer.subscription.updated" ∨
  t = "customer.subscription.deleted"

/-- A recognized event whose external reference matches no local
subscription row: the created handler looks rows up by customer ref, the
updated and deleted handlers by subscription ref. -/
def lookupMiss (db : DB) (ev : StripeEvent) : Prop :=
  (ev.etype = "customer.subscription.created" ∧
     ∀ s ∈ db.subscriptions, s.stripe_customer_id ≠ ev.obj.customer) ∨
  ((ev.etype = "customer.subscription.updated" ∨
    ev.etype = "customer.subscription.deleted") ∧
     ∀ s ∈ db.subscriptions, s.stripe_subscription_id ≠ ev.obj.id)

/-- Count of inactive basic subscription rows of a user. -/
def pendingBasicCount (subs : List Subscription) (uid : Nat) : Nat :=
  subs.countP (fun t => t.user_id == uid && t.tier == "basic" && !t.is_active)

/-- Count of basic subscription rows of a user. -/
def basicCount (subs : List Subscription) (uid : Nat) : Nat :=
  subs.countP (fun t => t.user_id == uid && t.tier == "basic")

/-- A fixture database: user 7 holds a single active professional
subscription synchronized with the billing provider. -/
def dbC2 : DB :=
  { users := [], user_agents := [],
    subscriptions :=
      [{ id := 1, user_id := 7, tier := "professional",
         stripe_customer_id := some "cus_1",
         stripe_subscription_id := some "sub_1",
         is_active := true, started_at := some 100, ended_at := none,
         auto_renew := true }],
    next_user_id := 8, next_sub_id := 2 }

/-- A deleted-subscription webhook event for the fixture subscription. -/
def evC2 : StripeEvent :=
  { etype := "customer.subscription.deleted",
    obj := { id := some "sub_1", canceled_at := some 555 } }

/-- Fixture for the reordering scenario: same store as dbC2. -/
def dbC3 : DB :=
  { users := [], user_agents := [],
    subscriptions :=
      [{ id := 1, user_id := 7, tier := "professional",
         stripe_customer_id := some "cus_1",
         stripe_subscription_id := some "sub_1",
         is_active := true, started_at := some 100, ended_at := none,
         auto_renew := true }],
    next_user_id := 8, next_sub_id := 2 }

/-- The deleted event arriving first. -/
def evC3del : StripeEvent :=
  { etype := "customer.subscription.deleted",
    obj := { id := some "sub_1", canceled_at := some 555 } }

/-- A stale updated event for the same subscription ref, carrying
provider status active, arriving after the deleted event. -/
def evC3upd : StripeEvent :=
  { etype := "customer.subscription.updated",
    obj := { id := some "sub_1", status := some "active",
             cancel_at_period_end := false } }

/-- Fixture for subscription creation: user 7 holds only the active free
basic subscription, and the professional price reference is
configured. -/
def envC6 : StripeEnv :=
  { pro_price_id := some "price_pro", enterprise_price_id := some "price_ent" }

/-- An empty store. -/
def dbEmpty : DB := {}

/-- Store for the creation scenario. -/
def dbC6 : DB :=
  { users := [], user_agents := [],
    subscriptions :=
      [{ id := 1, user_id := 7, tier := "basic",
         stripe_customer_id := none, stripe_subscription_id := none,
         is_active := true, started_at := some 50, ended_at := none,
         auto_renew := false }],
    next_user_id := 8, next_sub_id := 2 }

end AgentMarket

namespace AgentMarket

/-- The fold used by activeSubscription only ever returns an element of
the list or the initial accumulator. -/
lemma pickMax_mem (l : List Subscription) (acc : Option Subscription)
    (s : Subscription)
    (h : l.foldl
      (fun acc s =>
        match acc with
        | none => some s
        | some t => if t.id < s.id then some s else some t) acc = some s) :
    s ∈ l ∨ acc = some s := by
  induction l generalizing acc with
  | nil => exact Or.inr h
  | cons x xs ih =>
      simp only [List.foldl_cons] at h
      rcases ih _ h with hmem | hacc
      · exact Or.inl (List.mem_cons_of_mem _ hmem)
      · cases acc with
        | none =>
            simp only [Option.some.injEq] at hacc
            exact Or.inl (hacc ▸ List.mem_cons_self x xs)
        | some t =>
            have hacc2 : (if t.id < x.id then some x else some t) = some s := hacc
            by_cases hlt : t.id < x.id
            · rw [if_pos hlt] at hacc2
              simp only [Option.some.injEq] at hacc2
              exact Or.inl (hacc2 ▸ List.mem_cons_self x xs)
            · rw [if_neg hlt] at hacc2
              exact Or.inr hacc2

/-- A row returned by activeSubscription is a stored, active row of the
given user. -/
lemma activeSubscription_spec (db : DB) (uid : Nat) (s : Subscription)
    (h : activeSubscription db uid = some s) :
    s ∈ db.subscriptions ∧ s.user_id = uid ∧ s.is_active = true := by
  unfold activeSubscription at h
  rcases pickMax_mem _ none s h with hmem | hacc
  · have hf := List.mem_filter.mp hmem
    have hcond := hf.2
    simp only [Bool.and_eq_true, beq_iff_eq] at hcond
    exact ⟨hf.1, hcond.1, hcond.2⟩
  · cases hacc

/-- updateFirst preserves the length of the list. -/
lemma updateFirst_length (l : List Subscription) (p : Subscription → Bool)
    (f : Subscription → Subscription) :
    (updateFirst l p f).length = l.length := by
  induction l with
  | nil => rfl
  | cons x xs ih =>
      simp only [updateFirst]
      split <;> simp [ih]

/-- updateFirst leaves every row failing the predicate in place. -/
lemma updateFirst_mem_of_not (l : List Subscription) (p : Subscription → Bool)
    (f : Subscription → Subscription) (t : Subscription)
    (ht : t ∈ l) (hpt : p t = false) : t ∈ updateFirst l p f := by
  induction l with
  | nil => cases ht
  | cons x xs ih =>
      simp only [updateFirst]
      rcases List.mem_cons.mp ht with rfl | hmem
      · rw [hpt]
        simp
      · split
        · exact List.mem_cons_of_mem _ hmem
        · exact List.mem_cons_of_mem _ (ih hmem)

/-- When the matching row is unique, updateFirst contains its image. -/
lemma updateFirst_mem_update (l : List Subscription) (p : Subscription → Bool)
    (f : Subscription → Subscription) (s : Subscription)
    (hs : s ∈ l) (hps : p s = true)
    (huniq : ∀ t ∈ l, p t = true → t = s) : f s ∈ updateFirst l p f := by
  induction l with
  | nil => cases hs
  | cons x xs ih =>
      simp only [updateFirst]
      by_cases hx : p x = true
      · have hxs : x = s := huniq x (List.mem_cons_self x xs) hx
        rw [if_pos hx, hxs]
        exact List.mem_cons_self _ _
      · rw [if_neg hx]
        have hsx : s ∈ xs := by
          rcases List.mem_cons.mp hs with rfl | hmem
          · exact absurd hps hx
          · exact hmem
        exact List.mem_cons_of_mem _
          (ih hsx (fun t ht hpt => huniq t (List.mem_cons_of_mem _ ht) hpt))

/-- updateFirst is invisible to a count whose predicate the update does
not change. -/
lemma updateFirst_countP (l : List Subscription) (p : Subscription → Bool)
    (f : Subscription → Subscription) (q : Subscription → Bool)
    (hq : ∀ t, q (f t) = q t) :
    List.countP q (updateFirst l p f) = List.countP q l := by
  induction l with
  | nil => rfl
  | cons x xs ih =>
      simp only [updateFirst]
      split
      · simp [List.countP_cons, hq]
      · simp [List.countP_cons, ih]

/-- The subscription component of get_subscription_user is the active
subscription lookup. -/
lemma get_subscription_user_fst (db : DB) (uid : Nat) :
    (get_subscription_user db uid).fst = activeSubscription db uid := by
  unfold get_subscription_user
  cases activeSubscription db uid <;> rfl

/-- Two members of a list both satisfying a predicate whose filter has at
most one element are equal. -/
lemma filter_le_one_unique {α : Type} (l : List α) (p : α → Bool)
    (hdup : (l.filter p).length ≤ 1) {x y : α}
    (hx : x ∈ l) (hpx : p x = true) (hy : y ∈ l) (hpy : p y = true) :
    x = y := by
  have hx1 : x ∈ l.filter p := List.mem_filter.mpr ⟨hx, hpx⟩
  have hy1 : y ∈ l.filter p := List.mem_filter.mpr ⟨hy, hpy⟩
  rcases hfl : l.filter p with - | ⟨a, - | ⟨b, rest⟩⟩
  · rw [hfl] at hx1
    cases hx1
  · rw [hfl] at hx1 hy1
    simp only [List.mem_singleton] at hx1 hy1
    rw [hx1, hy1]
  · rw [hfl] at hdup
    simp at hdup

/-- C1: for every user and capability identifier, check_agent_access
allows access iff the capability is in the capability set of the user
resolved tier and no grant row for the pair is disabled; a tier miss
denies with the tier-does-not-include reason and an explicitly disabled
grant denies with the explicitly-disabled reason.  The store is assumed
to hold at most one grant row per (user, capability) pair, the data-model
invariant of the grants table. -/
theorem C1_entitlement_iff (env : StripeEnv) (db : DB) (uid : Nat)
    (agent : String) (hne : agent ≠ "")
    (hdup : (db.user_agents.filter
      (fun ua => ua.user_id == uid && ua.agent_id == agent)).length ≤ 1) :
    ((check_agent_access env db uid agent).fst = AccessOutcome.allow ↔
      (agent ∈ tierAgents env (resolveTier db uid) ∧
        ∀ ua ∈ db.user_agents,
          ua.user_id = uid → ua.agent_id = agent → ua.is_enabled = true)) ∧
    (agent ∉ tierAgents env (resolveTier db uid) →
      (check_agent_access env db uid agent).fst = AccessOutcome.tierNotIncluded) ∧
    (agent ∈ tierAgents env (resolveTier db uid) →
      (∃ ua ∈ db.user_agents,
        ua.user_id = uid ∧ ua.agent_id = agent ∧ ua.is_enabled = false) →
      (check_agent_access env db uid agent).fst = AccessOutcome.explicitlyDisabled) := by
  unfold check_agent_access
  rw [if_neg hne]
  by_cases hmem : agent ∈ tierAgents env (resolveTier db uid)
  · rw [if_pos hmem]
    cases hf : findUserAgent db uid agent with
    | none =>
        have hnone := List.find?_eq_none.mp hf
        refine ⟨?_, fun hn => absurd hmem hn, ?_⟩
        · constructor
          · intro _
            refine ⟨hmem, fun ua hua h1 h2 => ?_⟩
            exact absurd (by simp [h1, h2]) (hnone ua hua)
          · intro _
            rfl
        · intro _ hex
          rcases hex with ⟨ua, hua, h1, h2, _⟩
          exact absurd (by simp [h1, h2]) (hnone ua hua)
    | some ua =>
        have hp := List.find?_some hf
        have hm := List.mem_of_find?_eq_some hf
        unfold findUserAgent at hf
        simp only [Bool.and_eq_true, beq_iff_eq] at hp
        by_cases hen : ua.is_enabled = true
        · refine ⟨?_, fun hn => absurd hmem hn, ?_⟩
          · constructor
            · intro _
              refine ⟨hmem, fun ub hub h1 h2 => ?_⟩
              have hub_ua : ub = ua :=
                filter_le_one_unique _ _ hdup hub (by simp [h1, h2]) hm
                  (by simp [hp.1, hp.2])
              rw [hub_ua]
              exact hen
            · intro _
              simp [hen]
          · intro _ hex
            rcases hex with ⟨ub, hub, h1, h2, h3⟩
            have hub_ua : ub = ua :=
              filter_le_one_unique _ _ hdup hub (by simp [h1, h2]) hm
                (by simp [hp.1, hp.2])
            rw [hub_ua, hen] at h3
            cases h3
        · rw [Bool.not_eq_true] at hen
          refine ⟨?_, fun hn => absurd hmem hn, fun _ _ => by simp [hen]⟩
          constructor
          · intro hall
            simp [hen] at hall
          · intro hcl
            have := hcl.2 ua hm hp.1 hp.2
            rw [hen] at this
            cases this
  · rw [if_neg hmem]
    refine ⟨?_, fun _ => rfl, fun hmem2 _ => absurd hmem2 hmem⟩
    constructor
    · intro hall
      simp at hall
    · intro hcl
      exact absurd hcl.1 hmem

/-- C1 witness: on the concrete store dbC6 (user 7 on the basic tier with
no grant rows) and the capability portfolio_agent, the hypotheses hold
and the three clauses are obtained from C1_entitlement_iff. -/
theorem C1_entitlement_iff_witness :
    (((check_agent_access envC6 dbC6 7 "portfolio_agent").fst =
        AccessOutcome.allow ↔
      ("portfolio_agent" ∈ tierAgents envC6 (resolveTier dbC6 7) ∧
        ∀ ua ∈ dbC6.user_agents,
          ua.user_id = 7 → ua.agent_id = "portfolio_agent" →
            ua.is_enabled = true)) ∧
    ("portfolio_agent" ∉ tierAgents envC6 (resolveTier dbC6 7) →
      (check_agent_access envC6 dbC6 7 "portfolio_agent").fst =
        AccessOutcome.tierNotIncluded) ∧
    ("portfolio_agent" ∈ tierAgents envC6 (resolveTier dbC6 7) →
      (∃ ua ∈ dbC6.user_agents,
        ua.user_id = 7 ∧ ua.agent_id = "portfolio_agent" ∧
          ua.is_enabled = false) →
      (check_agent_access envC6 dbC6 7 "portfolio_agent").fst =
        AccessOutcome.explicitlyDisabled)) :=
  C1_entitlement_iff envC6 dbC6 7 "portfolio_agent" (by decide) (by decide)

/-- C7: a user with no active subscription row resolves to tier basic,
the shipped basic tier lists only portfolio_agent, and every capability
the entitlement check allows for such a user is in that list. -/
theorem C7_no_subscription_is_basic (env : StripeEnv) (db : DB) (uid : Nat)
    (h : activeSubscription db uid = none) :
    resolveTier db uid = "basic" ∧
    tierAgents env "basic" = ["portfolio_agent"] ∧
    ∀ agent, (check_agent_access env db uid agent).fst = AccessOutcome.allow →
      agent ∈ tierAgents env "basic" := by
  have htier : resolveTier db uid = "basic" := by
    unfold resolveTier get_subscription_user
    rw [h]
  refine ⟨htier, rfl, fun agent hallow => ?_⟩
  unfold check_agent_access at hallow
  by_cases hne : agent = ""
  · rw [if_pos hne] at hallow
    simp at hallow
  · rw [if_neg hne] at hallow
    by_cases hmem : agent ∈ tierAgents env (resolveTier db uid)
    · rw [htier] at hmem
      exact hmem
    · rw [if_neg hmem] at hallow
      simp at hallow

/-- C7 witness: in the empty store, user 3 has no active subscription;
the tier resolves to basic and only portfolio_agent can be allowed. -/
theorem C7_no_subscription_is_basic_witness :
    resolveTier dbEmpty 3 = "basic" ∧
    tierAgents envC6 "basic" = ["portfolio_agent"] ∧
    ∀ agent,
      (check_agent_access envC6 dbEmpty 3 agent).fst = AccessOutcome.allow →
        agent ∈ tierAgents envC6 "basic" :=
  C7_no_subscription_is_basic envC6 dbEmpty 3 (by rfl)

/-- C8: for a fresh (user, capability) pair covered by the tier, the
first check allows and appends exactly one enabled grant row (so the
store then holds exactly one grant row for the pair), and a second
sequential check allows again while leaving the store untouched. -/
theorem C8_first_touch_idempotent (env : StripeEnv) (db : DB) (uid : Nat)
    (agent : String) (hne : agent ≠ "")
    (hfresh : findUserAgent db uid agent = none)
    (hcov : agent ∈ tierAgents env (resolveTier db uid)) :
    check_agent_access env db uid agent =
      (AccessOutcome.allow,
       { db with user_agents := db.user_agents ++
           [{ user_id := uid, agent_id := agent, is_enabled := true }] }) ∧
    (((check_agent_access env db uid agent).snd.user_agents.filter
        (fun ua => ua.user_id == uid && ua.agent_id == agent)).length = 1) ∧
    check_agent_access env (check_agent_access env db uid agent).snd uid agent =
      (AccessOutcome.allow, (check_agent_access env db uid agent).snd) := by
  have hfirst : check_agent_access env db uid agent =
      (AccessOutcome.allow,
       { db with user_agents := db.user_agents ++
           [{ user_id := uid, agent_id := agent, is_enabled := true }] }) := by
    unfold check_agent_access
    rw [if_neg hne, if_pos hcov, hfresh]
  refine ⟨hfirst, ?_, ?_⟩
  · rw [hfirst]
    have hnone := List.find?_eq_none.mp hfresh
    have hfil : db.user_agents.filter
        (fun ua => ua.user_id == uid && ua.agent_id == agent) = [] :=
      List.filter_eq_nil_iff.mpr hnone
    simp [List.filter_append, hfil]
  · rw [hfirst]
    have htier :
        resolveTier { db with user_agents := db.user_agents ++
            [{ user_id := uid, agent_id := agent, is_enabled := true }] } uid =
          resolveTier db uid := rfl
    have hfind : findUserAgent
        { db with user_agents := db.user_agents ++
            [{ user_id := uid, agent_id := agent, is_enabled := true }] }
        uid agent =
          some { user_id := uid, agent_id := agent, is_enabled := true } := by
      unfold findUserAgent at hfresh ⊢
      rw [List.find?_append, hfresh]
      simp
    unfold check_agent_access
    rw [if_neg hne, htier, if_pos hcov, hfind]
    rfl

/-- C8 witness: user 3 in the empty store with the covered capability
portfolio_agent. -/
theorem C8_first_touch_idempotent_witness :
    check_agent_access envC6 dbEmpty 3 "portfolio_agent" =
      (AccessOutcome.allow,
       { dbEmpty with user_agents := dbEmpty.user_agents ++
           [{ user_id := 3, agent_id := "portfolio_agent",
              is_enabled := true }] }) ∧
    (((check_agent_access envC6 dbEmpty 3 "portfolio_agent").snd.user_agents.filter
        (fun ua => ua.user_id == 3 && ua.agent_id == "portfolio_agent")).length
      = 1) ∧
    check_agent_access envC6
        (check_agent_access envC6 dbEmpty 3 "portfolio_agent").snd 3
        "portfolio_agent" =
      (AccessOutcome.allow,
       (check_agent_access envC6 dbEmpty 3 "portfolio_agent").snd) :=
  C8_first_touch_idempotent envC6 dbEmpty 3 "portfolio_agent" (by decide)
    (by rfl) (by decide)

/-- C9: the webhook reconciler returns success and leaves the store
unchanged both for an unrecognized event kind and for a recognized event
whose external reference matches no local subscription row. -/
theorem C9_unmatched_event_noop (env : StripeEnv) (db : DB) (ev : StripeEvent)
    (now : Int) (h : ¬ recognizedKind ev.etype ∨ lookupMiss db ev) :
    process_stripe_webhook env db ev now = (true, db) := by
  unfold process_stripe_webhook
  rcases h with hunrec | hmiss
  · unfold recognizedKind at hunrec
    push_neg at hunrec
    obtain ⟨h1, h2, h3⟩ := hunrec
    rw [if_neg (fun hb => h1 (beq_iff_eq.mp hb)),
        if_neg (fun hb => h2 (beq_iff_eq.mp hb)),
        if_neg (fun hb => h3 (beq_iff_eq.mp hb))]
  · rcases hmiss with ⟨hty, hall⟩ | ⟨hty | hty, hall⟩
    · rw [if_pos (beq_iff_eq.mpr hty)]
      have hfind : db.subscriptions.find?
          (fun s => s.stripe_customer_id == ev.obj.customer) = none :=
        List.find?_eq_none.mpr
          (fun s hs => fun hp => hall s hs (beq_iff_eq.mp hp))
      rw [hfind]
    · have hne1 : ev.etype ≠ "customer.subscription.created" := by
        rw [hty]
        decide
      rw [if_neg (fun hb => hne1 (beq_iff_eq.mp hb)),
          if_pos (beq_iff_eq.mpr hty)]
      have hfind : db.subscriptions.find?
          (fun s => s.stripe_subscription_id == ev.obj.id) = none :=
        List.find?_eq_none.mpr
          (fun s hs => fun hp => hall s hs (beq_iff_eq.mp hp))
      rw [hfind]
    · have hne1 : ev.etype ≠ "customer.subscription.created" := by
        rw [hty]
        decide
      have hne2 : ev.etype ≠ "customer.subscription.updated" := by
        rw [hty]
        decide
      rw [if_neg (fun hb => hne1 (beq_iff_eq.mp hb)),
          if_neg (fun hb => hne2 (beq_iff_eq.mp hb)),
          if_pos (beq_iff_eq.mpr hty)]
      have hfind : db.subscriptions.find?
          (fun s => s.stripe_subscription_id == ev.obj.id) = none :=
        List.find?_eq_none.mpr
          (fun s hs => fun hp => hall s hs (beq_iff_eq.mp hp))
      rw [hfind]

/-- C9 witness: an unrecognized invoice event on the empty store, and a
deleted event whose subscription ref matches nothing. -/
theorem C9_unmatched_event_noop_witness :
    process_stripe_webhook envC6 dbEmpty
        { etype := "invoice.paid", obj := {} } 5 = (true, dbEmpty) ∧
    process_stripe_webhook envC6 dbEmpty
        { etype := "customer.subscription.deleted",
          obj := { id := some "sub_nope" } } 5 = (true, dbEmpty) :=
  ⟨C9_unmatched_event_noop envC6 dbEmpty _ 5
     (Or.inl (by unfold recognizedKind; decide)),
   C9_unmatched_event_noop envC6 dbEmpty _ 5
     (Or.inr (Or.inr ⟨Or.inr rfl, by decide⟩))⟩

/-- C4: when the user holds an active non-basic subscription,
create_new_subscription rejects with the conflict error, makes no
external billing call, and leaves the store untouched. -/
theorem C4_create_rejects_active_paid (db : DB) (uid : Nat)
    (price_id payment_method_id : String) (s : Subscription)
    (h1 : activeSubscription db uid = some s) (h2 : s.tier ≠ "basic") :
    create_new_subscription db uid price_id payment_method_id =
      (CreateOutcome.conflict, db, 0) := by
  have hact := (activeSubscription_spec db uid s h1).2.2
  unfold create_new_subscription
  rw [get_subscription_user_fst, h1]
  have hcond : (s.is_active && !(s.tier == "basic")) = true := by
    rw [hact]
    simp [h2]
  simp [hcond]

/-- C4 witness: user 7 of dbC2 holds the active professional
subscription, so creation is rejected with no external call and an
unchanged store. -/
theorem C4_create_rejects_active_paid_witness :
    create_new_subscription dbC2 7 "price_pro" "pm_1" =
      (CreateOutcome.conflict, dbC2, 0) :=
  C4_create_rejects_active_paid dbC2 7 "price_pro" "pm_1"
    { id := 1, user_id := 7, tier := "professional",
      stripe_customer_id := some "cus_1",
      stripe_subscription_id := some "sub_1",
      is_active := true, started_at := some 100, ended_at := none,
      auto_renew := true }
    (by decide) (by decide)

/-- C5: cancelling while an active non-basic subscription is current
succeeds, sets auto_renew to false on the current row without deleting it
or touching its is_active flag, leaves every other row in place, adds
exactly one row overall, and that row is an inactive basic subscription
of the user.  Primary keys are assumed injective on the stored rows. -/
theorem C5_cancel_keeps_row_adds_pending_basic (db : DB) (uid : Nat)
    (now : Int) (s : Subscription)
    (h1 : activeSubscription db uid = some s) (h2 : s.tier ≠ "basic")
    (hids : ∀ t1 ∈ db.subscriptions, ∀ t2 ∈ db.subscriptions,
      t1.id = t2.id → t1 = t2) :
    (cancel_current_subscription db uid now).fst = CancelOutcome.ok ∧
    { s with auto_renew := false } ∈
      (cancel_current_subscription db uid now).snd.fst.subscriptions ∧
    (cancel_current_subscription db uid now).snd.fst.subscriptions.length =
      db.subscriptions.length + 1 ∧
    (∀ t ∈ db.subscriptions, t.id ≠ s.id →
      t ∈ (cancel_current_subscription db uid now).snd.fst.subscriptions) ∧
    pendingBasicCount
        (cancel_current_subscription db uid now).snd.fst.subscriptions uid =
      pendingBasicCount db.subscriptions uid + 1 := by
  obtain ⟨hmem, -, -⟩ := activeSubscription_spec db uid s h1
  have hcond : (s.tier == "basic") = false := by
    simp [h2]
  have hres : cancel_current_subscription db uid now =
      (CancelOutcome.ok,
       { db with
         subscriptions :=
           updateFirst db.subscriptions (fun t => t.id == s.id)
             (fun t => { t with auto_renew := false }) ++
           [{ id := db.next_sub_id, user_id := uid, tier := "basic",
              is_active := false, started_at := some now, ended_at := none,
              auto_renew := false }],
         next_sub_id := db.next_sub_id + 1 },
       pyTruthy s.stripe_subscription_id) := by
    unfold cancel_current_subscription
    rw [get_subscription_user_fst, h1]
    simp only [hcond, Bool.false_eq_true, if_false]
  rw [hres]
  refine ⟨rfl, ?_, ?_, ?_, ?_⟩
  · refine List.mem_append_left _ ?_
    refine updateFirst_mem_update _ _ _ s hmem (by simp) ?_
    intro t ht hpt
    exact hids t ht s hmem (beq_iff_eq.mp hpt)
  · simp [updateFirst_length]
  · intro t ht hne
    refine List.mem_append_left _ ?_
    exact updateFirst_mem_of_not _ _ _ t ht (by simp [hne])
  · unfold pendingBasicCount
    rw [List.countP_append,
        updateFirst_countP db.subscriptions (fun t => t.id == s.id)
          (fun t => { t with auto_renew := false })
          (fun t => t.user_id == uid && t.tier == "basic" && !t.is_active)
          (fun t => rfl)]
    simp

/-- C5 witness: cancelling the professional subscription of user 7 in
dbC2. -/
theorem C5_cancel_keeps_row_adds_pending_basic_witness :
    (cancel_current_subscription dbC2 7 300).fst = CancelOutcome.ok ∧
    ({ id := 1, user_id := 7, tier := "professional",
       stripe_customer_id := some "cus_1",
       stripe_subscription_id := some "sub_1",
       is_active := true, started_at := some 100, ended_at := none,
       auto_renew := false } : Subscription) ∈
      (cancel_current_subscription dbC2 7 300).snd.fst.subscriptions ∧
    (cancel_current_subscription dbC2 7 300).snd.fst.subscriptions.length =
      dbC2.subscriptions.length + 1 ∧
    (∀ t ∈ dbC2.subscriptions, t.id ≠ 1 →
      t ∈ (cancel_current_subscription dbC2 7 300).snd.fst.subscriptions) ∧
    pendingBasicCount
        (cancel_current_subscription dbC2 7 300).snd.fst.subscriptions 7 =
      pendingBasicCount dbC2.subscriptions 7 + 1 :=
  C5_cancel_keeps_row_adds_pending_basic dbC2 7 300
    { id := 1, user_id := 7, tier := "professional",
      stripe_customer_id := some "cus_1",
      stripe_subscription_id := some "sub_1",
      is_active := true, started_at := some 100, ended_at := none,
      auto_renew := true }
    (by decide) (by decide) (by decide)

/-- C2: behaviour of the code at the failing input.  Replaying the same
deleted event over dbC2 reports success twice and leaves the matched row
inactive after each application, but inserts a fresh basic row on each
application, so user 7 ends up with two new basic rows — the replay is
not idempotent. -/
theorem C2_deleted_replay_not_idempotent :
    (process_stripe_webhook envC6 dbC2 evC2 200).fst = true ∧
    (process_stripe_webhook envC6
        (process_stripe_webhook envC6 dbC2 evC2 200).snd evC2 201).fst = true ∧
    (∀ t ∈ (process_stripe_webhook envC6 dbC2 evC2 200).snd.subscriptions,
       t.id = 1 → t.is_active = false) ∧
    (∀ t ∈ (process_stripe_webhook envC6
        (process_stripe_webhook envC6 dbC2 evC2 200).snd evC2 201).snd.subscriptions,
       t.id = 1 → t.is_active = false) ∧
    basicCount (process_stripe_webhook envC6 dbC2 evC2 200).snd.subscriptions 7
      = 1 ∧
    basicCount (process_stripe_webhook envC6
        (process_stripe_webhook envC6 dbC2 evC2 200).snd evC2 201).snd.subscriptions 7
      = 2 := by
  decide

/-- C3: behaviour of the code at the failing input.  After the deleted
event deactivates subscription row 1, a stale updated event for the same
subscription ref carrying provider status active flips the row back to
active: the canceled subscription is resurrected. -/
theorem C3_stale_update_resurrects :
    (∀ t ∈ (process_stripe_webhook envC6 dbC3 evC3del 200).snd.subscriptions,
       t.id = 1 → t.is_active = false) ∧
    (∃ t ∈ (process_stripe_webhook envC6
        (process_stripe_webhook envC6 dbC3 evC3del 200).snd
        evC3upd 201).snd.subscriptions,
       t.id = 1 ∧ t.is_active = true) := by
  decide

/-- C6: behaviour of the code at the failing input.  With the
professional price reference configured and requested, the handler never
persists a professional subscription: the unimported name settings raises
NameError after the two external billing calls, the generic handler turns
it into a server error, and the store is unchanged. -/
theorem C6_create_raises_before_persisting :
    create_new_subscription dbC6 7 "price_pro" "pm_1" =
      (CreateOutcome.serverError, dbC6, 2) ∧
    ((create_new_subscription dbC6 7 "price_pro" "pm_1").snd.fst.subscriptions.filter
       (fun t => t.tier == "professional")).length = 0 := by
  decide

/-- For a fresh email create_user takes the insertion branch: the result
is the fresh user id and the store extended with the users row, the
active basic subscription, and the enabled basic-tier grants. -/
lemma create_user_fresh (env : StripeEnv) (db : DB) (email : String)
    (password : Option String) (first_name last_name : Option String)
    (google_id : Option String) (hash : String → String) (now : Int)
    (hfresh : db.users.find? (fun u => u.email == email) = none) :
    create_user env db email password first_name last_name google_id hash now =
      (db.next_user_id,
       { users := db.users ++
           [{ id := db.next_user_id, email := email,
              hashed_password := password.map hash, google_id := google_id,
              first_name := first_name, last_name := last_name,
              last_login := some now }],
         subscriptions := db.subscriptions ++
           [{ id := db.next_sub_id, user_id := db.next_user_id,
              tier := "basic", stripe_customer_id := none,
              stripe_subscription_id := none, is_active := true,
              started_at := some now, ended_at := none,
              auto_renew := false }],
         user_agents := db.user_agents ++
           [{ user_id := db.next_user_id, agent_id := "portfolio_agent",
              is_enabled := true }],
         next_user_id := db.next_user_id + 1,
         next_sub_id := db.next_sub_id + 1 }) := by
  unfold create_user
  rw [hfresh]
  rfl

/-- C10: creating a user with a fresh email also creates exactly one
subscription row for the new user — an active basic one with auto_renew
off — and exactly one enabled grant row per basic-tier agent, so the
fresh user resolves to an active subscription.  The autoincrement user id
is assumed unused by existing subscription and grant rows. -/
theorem C10_create_user_provisions_basic (env : StripeEnv) (db : DB)
    (email : String) (password : Option String)
    (first_name last_name google_id : Option String)
    (hash : String → String) (now : Int)
    (hfresh : db.users.find? (fun u => u.email == email) = none)
    (hsub : ∀ t ∈ db.subscriptions, t.user_id ≠ db.next_user_id)
    (hag : ∀ g ∈ db.user_agents, g.user_id ≠ db.next_user_id) :
    (create_user env db email password first_name last_name google_id
        hash now).fst = db.next_user_id ∧
    (create_user env db email password first_name last_name google_id
        hash now).snd.subscriptions.filter
      (fun t => t.user_id == db.next_user_id) =
      [{ id := db.next_sub_id, user_id := db.next_user_id, tier := "basic",
         stripe_customer_id := none, stripe_subscription_id := none,
         is_active := true, started_at := some now, ended_at := none,
         auto_renew := false }] ∧
    (create_user env db email password first_name last_name google_id
        hash now).snd.user_agents.filter
      (fun g => g.user_id == db.next_user_id) =
      [{ user_id := db.next_user_id, agent_id := "portfolio_agent",
         is_enabled := true }] ∧
    activeSubscription
      (create_user env db email password first_name last_name google_id
        hash now).snd db.next_user_id ≠ none := by
  rw [create_user_fresh env db email password first_name last_name google_id
      hash now hfresh]
  have h0 : db.subscriptions.filter
      (fun t => t.user_id == db.next_user_id) = [] :=
    List.filter_eq_nil_iff.mpr (fun t ht => by simp [hsub t ht])
  have h1 : db.user_agents.filter
      (fun g => g.user_id == db.next_user_id) = [] :=
    List.filter_eq_nil_iff.mpr (fun g hg => by simp [hag g hg])
  have h2 : db.subscriptions.filter
      (fun t => t.user_id == db.next_user_id && t.is_active) = [] :=
    List.filter_eq_nil_iff.mpr (fun t ht => by simp [hsub t ht])
  refine ⟨rfl, ?_, ?_, ?_⟩
  · simp [List.filter_append, h0]
  · simp [List.filter_append, h1]
  · simp [activeSubscription, List.filter_append, h2]

/-- C10 witness: creating a user with a fresh email in the empty
store. -/
theorem C10_create_user_provisions_basic_witness :
    (create_user envC6 dbEmpty "a@b.c" (some "pw") none none none
        (fun s => s) 42).fst = dbEmpty.next_user_id ∧
    (create_user envC6 dbEmpty "a@b.c" (some "pw") none none none
        (fun s => s) 42).snd.subscriptions.filter
      (fun t => t.user_id == dbEmpty.next_user_id) =
      [{ id := dbEmpty.next_sub_id, user_id := dbEmpty.next_user_id,
         tier := "basic", stripe_customer_id := none,
         stripe_subscription_id := none, is_active := true,
         started_at := some 42, ended_at := none, auto_renew := false }] ∧
    (create_user envC6 dbEmpty "a@b.c" (some "pw") none none none
        (fun s => s) 42).snd.user_agents.filter
      (fun g => g.user_id == dbEmpty.next_user_id) =
      [{ user_id := dbEmpty.next_user_id, agent_id := "portfolio_agent",
         is_enabled := true }] ∧
    activeSubscription
      (create_user envC6 dbEmpty "a@b.c" (some "pw") none none none
        (fun s => s) 42).snd dbEmpty.next_user_id ≠ none :=
  C10_create_user_provisions_basic envC6 dbEmpty "a@b.c" (some "pw")
    none none none (fun s => s) 42 (by rfl) (by decide) (by decide)

end AgentMarket
